import Mathlib

/-
  Verification of the webhook authenticity and subscription state-reconciliation
  core of the better-auth-payu plugin.

  The development shallowly embeds:
  * the Node `crypto` primitive `createHmac("sha512", key)` as HMAC-SHA-512
    (FIPS 180-4 / RFC 2104) over byte lists, with 64-bit words as `Nat` mod 2^64;
  * the hash engine of `src/utils.ts` (`generatePayUHash`, `verifyPayUHash`);
  * the UDF metadata helpers of `src/metadata.ts`;
  * the webhook reconciliation handlers of `src/hooks.ts`, with the persistence
    adapter modelled as explicit state passing over a list of subscription rows,
    fallible operations modelled in `Except` (the error carries the world state
    at the point of the throw, mirroring already-applied side effects), and
    `new Date()` modelled as the `now` field of the world state;
  * the webhook endpoint dispatch of `src/routes.ts`.
-/

set_option maxRecDepth 40000

namespace PayU

-- ═══════════════════════════════════════════════════════════════════════════
-- SHA-512 (FIPS 180-4), 64-bit words as Nat mod 2^64
-- ═══════════════════════════════════════════════════════════════════════════

def w64 : Nat := 2 ^ 64

def add64 (a b : Nat) : Nat := (a + b) % w64

def rotr64 (x n : Nat) : Nat := ((x >>> n) ||| (x <<< (64 - n))) % w64

def not64 (x : Nat) : Nat := x ^^^ (w64 - 1)

def bsig0 (x : Nat) : Nat := (rotr64 x 28) ^^^ (rotr64 x 34) ^^^ (rotr64 x 39)

def bsig1 (x : Nat) : Nat := (rotr64 x 14) ^^^ (rotr64 x 18) ^^^ (rotr64 x 41)

def ssig0 (x : Nat) : Nat := (rotr64 x 1) ^^^ (rotr64 x 8) ^^^ (x >>> 7)

def ssig1 (x : Nat) : Nat := (rotr64 x 19) ^^^ (rotr64 x 61) ^^^ (x >>> 6)

def chF (x y z : Nat) : Nat := (x &&& y) ^^^ ((not64 x) &&& z)

def majF (x y z : Nat) : Nat := (x &&& y) ^^^ (x &&& z) ^^^ (y &&& z)

def hInit : List Nat := [
  7640891576956012808, 13503953896175478587, 4354685564936845355,
  11912009170470909681, 5840696475078001361, 11170449401992604703,
  2270897969802886507, 6620516959819538809]

def kConsts : List Nat := [
  4794697086780616226, 8158064640168781261, 13096744586834688815,
  16840607885511220156, 4131703408338449720, 6480981068601479193,
  10538285296894168987, 12329834152419229976, 15566598209576043074,
  1334009975649890238, 2608012711638119052, 6128411473006802146,
  8268148722764581231, 9286055187155687089, 11230858885718282805,
  13951009754708518548, 16472876342353939154, 17275323862435702243,
  1135362057144423861, 2597628984639134821, 3308224258029322869,
  5365058923640841347, 6679025012923562964, 8573033837759648693,
  10970295158949994411, 12119686244451234320, 12683024718118986047,
  13788192230050041572, 14330467153632333762, 15395433587784984357,
  489312712824947311, 1452737877330783856, 2861767655752347644,
  3322285676063803686, 5560940570517711597, 5996557281743188959,
  7280758554555802590, 8532644243296465576, 9350256976987008742,
  10552545826968843579, 11727347734174303076, 12113106623233404929,
  14000437183269869457, 14369950271660146224, 15101387698204529176,
  15463397548674623760, 17586052441742319658, 1182934255886127544,
  1847814050463011016, 2177327727835720531, 2830643537854262169,
  3796741975233480872, 4115178125766777443, 5681478168544905931,
  6601373596472566643, 7507060721942968483, 8399075790359081724,
  8693463985226723168, 9568029438360202098, 10144078919501101548,
  10430055236837252648, 11840083180663258601, 13761210420658862357,
  14299343276471374635, 14566680578165727644, 15097957966210449927,
  16922976911328602910, 17689382322260857208, 500013540394364858,
  748580250866718886, 1242879168328830382, 1977374033974150939,
  2944078676154940804, 3659926193048069267, 4368137639120453308,
  4836135668995329356, 5532061633213252278, 6448918945643986474,
  6902733635092675308, 7801388544844847127]

/-- Big-endian base-256 split of a value into `fuel` bytes (most significant first). -/
def beBytes : Nat → Nat → List Nat
  | 0, _ => []
  | n + 1, x => beBytes n (x / 256) ++ [x % 256]

/-- Big-endian word assembly from bytes. -/
def bytesToWord (bs : List Nat) : Nat := bs.foldl (fun a b => a * 256 + b) 0

/-- SHA-512 message padding: append 0x80, pad with zeros to 112 mod 128,
then the 16-byte big-endian bit length. -/
def sha512Pad (msg : List Nat) : List Nat :=
  let padZeros := (128 + 112 - (msg.length + 1) % 128) % 128
  msg ++ [0x80] ++ List.replicate padZeros 0 ++ beBytes 16 (msg.length * 8)

/-- Split a byte list into `n` blocks of 128 bytes. -/
def chunkBlocks : Nat → List Nat → List (List Nat)
  | 0, _ => []
  | n + 1, bs => bs.take 128 :: chunkBlocks n (bs.drop 128)

/-- The 16 initial 64-bit schedule words of one 128-byte block. -/
def blockWords (block : List Nat) : List Nat :=
  (List.range 16).map (fun i => bytesToWord ((block.drop (8 * i)).take 8))

/-- Extend the message schedule; `w` holds the words so far, newest first. -/
def extendSchedule : Nat → List Nat → List Nat
  | 0, w => w
  | n + 1, w =>
    let t2 := w.getD 1 0
    let t7 := w.getD 6 0
    let t15 := w.getD 14 0
    let t16 := w.getD 15 0
    extendSchedule n (add64 (add64 (ssig1 t2) t7) (add64 (ssig0 t15) t16) :: w)

/-- The 80 schedule words of a block. -/
def schedule (block : List Nat) : List Nat :=
  (extendSchedule 64 (blockWords block).reverse).reverse

structure Hash8 where
  a : Nat
  b : Nat
  c : Nat
  d : Nat
  e : Nat
  f : Nat
  g : Nat
  h : Nat
deriving DecidableEq

def roundStep (st : Hash8) (kw : Nat × Nat) : Hash8 :=
  let t1 := add64 st.h (add64 (bsig1 st.e) (add64 (chF st.e st.f st.g) (add64 kw.1 kw.2)))
  let t2 := add64 (bsig0 st.a) (majF st.a st.b st.c)
  ⟨add64 t1 t2, st.a, st.b, st.c, add64 st.d t1, st.e, st.f, st.g⟩

def compress (hv : List Nat) (block : List Nat) : List Nat :=
  let ws := schedule block
  let st0 : Hash8 := ⟨hv.getD 0 0, hv.getD 1 0, hv.getD 2 0, hv.getD 3 0,
                      hv.getD 4 0, hv.getD 5 0, hv.getD 6 0, hv.getD 7 0⟩
  let st := (kConsts.zip ws).foldl roundStep st0
  [add64 (hv.getD 0 0) st.a, add64 (hv.getD 1 0) st.b, add64 (hv.getD 2 0) st.c,
   add64 (hv.getD 3 0) st.d, add64 (hv.getD 4 0) st.e, add64 (hv.getD 5 0) st.f,
   add64 (hv.getD 6 0) st.g, add64 (hv.getD 7 0) st.h]

/-- SHA-512 digest of a byte list, as the list of eight 64-bit state words. -/
def sha512Words (msg : List Nat) : List Nat :=
  let padded := sha512Pad msg
  (chunkBlocks (padded.length / 128) padded).foldl compress hInit

/-- SHA-512 digest of a byte list, as 64 bytes. -/
def sha512Bytes (msg : List Nat) : List Nat :=
  ((sha512Words msg).map (beBytes 8)).flatten

def hexDigitChar (n : Nat) : Char :=
  if n < 10 then Char.ofNat (48 + n) else Char.ofNat (87 + n)

/-- Lowercase hex rendering of a byte. -/
def byteHex (b : Nat) : List Char := [hexDigitChar (b / 16), hexDigitChar (b % 16)]

/-- Lowercase hex rendering of a byte list. -/
def bytesToHex (bs : List Nat) : String := ⟨(bs.map byteHex).flatten⟩

/-- UTF-8 encoding of a character as bytes. -/
def charUtf8 (c : Char) : List Nat :=
  let n := c.toNat
  if n < 0x80 then [n]
  else if n < 0x800 then [0xc0 ||| (n >>> 6), 0x80 ||| (n &&& 0x3f)]
  else if n < 0x10000 then
    [0xe0 ||| (n >>> 12), 0x80 ||| ((n >>> 6) &&& 0x3f), 0x80 ||| (n &&& 0x3f)]
  else
    [0xf0 ||| (n >>> 18), 0x80 ||| ((n >>> 12) &&& 0x3f),
     0x80 ||| ((n >>> 6) &&& 0x3f), 0x80 ||| (n &&& 0x3f)]

/-- UTF-8 bytes of a string (how Node hashes string inputs). -/
def strBytes (s : String) : List Nat := (s.data.map charUtf8).flatten

/-- HMAC (RFC 2104) over SHA-512: block size 128 bytes.  Keys of at most 128
bytes (the only case this code exercises: the key is always the empty string)
are zero-padded to the block size. -/
def hmacSha512Bytes (key msg : List Nat) : List Nat :=
  let k0 := key ++ List.replicate (128 - key.length) 0
  let inner := sha512Bytes ((k0.map (fun b => b ^^^ 0x36)) ++ msg)
  sha512Bytes ((k0.map (fun b => b ^^^ 0x5c)) ++ inner)

/-- The embedding of Node `createHmac("sha512", key).update(msg).digest("hex")`. -/
def hmacSha512Hex (key msg : String) : String :=
  bytesToHex (hmacSha512Bytes (strBytes key) (strBytes msg))

/-- FIPS 180-4 test vector: SHA-512 of "abc". -/
example : bytesToHex (sha512Bytes (strBytes "abc")) =
    "ddaf35a193617abacc417349ae20413112e6fa4e89a97ea20a9eeee64b55d39a2192992a274fc1a836ba3c23a3feebbd454d4423643ce80e2a9ac94fa54ca49f" := by
  decide

/-- RFC 2104 style cross-check: HMAC-SHA-512 with empty key over "hello". -/
example : hmacSha512Hex "" "hello" =
    "01365fbac98a843d2e7d51f75ea17306cdd8b0128b762eb56ded6600656f72a59d1489926910ea5fa81258e7248e683debc58e4c4f08f43521b3fe7a4d2c0a7b" := by
  decide

-- ═══════════════════════════════════════════════════════════════════════════
-- Hash engine (src/utils.ts)
-- ═══════════════════════════════════════════════════════════════════════════

/-- JavaScript `a || b` for an optional string `a`: the empty string is falsy. -/
def jsOr (a : Option String) (b : String) : String :=
  match a with
  | some s => if s = "" then b else s
  | none => b

/-- JavaScript array `.join("|")`. -/
def joinPipe : List String → String
  | [] => ""
  | [a] => a
  | a :: rest => a ++ "|" ++ joinPipe rest

/-- The parameter object of `generatePayUHash` (udf fields optional). -/
structure GenerateParams where
  key : String
  txnid : String
  amount : String
  productinfo : String
  firstname : String
  email : String
  udf1 : Option String := none
  udf2 : Option String := none
  udf3 : Option String := none
  udf4 : Option String := none
  udf5 : Option String := none
  udf6 : Option String := none
  udf7 : Option String := none
  udf8 : Option String := none
  udf9 : Option String := none
  udf10 : Option String := none
deriving DecidableEq

/-- The 17 joined fields of the outbound hash message, in order (an absent
udf slot joins as the empty string). -/
def generateFields (params : GenerateParams) (salt : String) : List String :=
  [params.key,
   params.txnid,
   params.amount,
   params.productinfo,
   params.firstname,
   params.email,
   jsOr params.udf1 "",
   jsOr params.udf2 "",
   jsOr params.udf3 "",
   jsOr params.udf4 "",
   jsOr params.udf5 "",
   jsOr params.udf6 "",
   jsOr params.udf7 "",
   jsOr params.udf8 "",
   jsOr params.udf9 "",
   jsOr params.udf10 "",
   salt]

/-- The `hashString` local of `generatePayUHash`:
key|txnid|amount|productinfo|firstname|email|udf1|...|udf10|salt. -/
def generateHashString (params : GenerateParams) (salt : String) : String :=
  joinPipe (generateFields params salt)

/-- `generatePayUHash` of src/utils.ts: outbound payment-initiation hash. -/
def generatePayUHash (params : GenerateParams) (salt : String) : String :=
  hmacSha512Hex "" (generateHashString params salt)

/-- The parameter object of `verifyPayUHash` (adds `status`). -/
structure VerifyParams where
  key : String
  txnid : String
  amount : String
  productinfo : String
  firstname : String
  email : String
  status : String
  udf1 : Option String := none
  udf2 : Option String := none
  udf3 : Option String := none
  udf4 : Option String := none
  udf5 : Option String := none
  udf6 : Option String := none
  udf7 : Option String := none
  udf8 : Option String := none
  udf9 : Option String := none
  udf10 : Option String := none
deriving DecidableEq

/-- The `reverseHashString` local of `verifyPayUHash`:
salt|status|(nine empty strings)|udf10|...|udf1|email|firstname|productinfo|amount|txnid|key. -/
def reverseHashString (params : VerifyParams) (salt : String) : String :=
  joinPipe [
    salt,
    params.status,
    "", "", "", "", "", "", "", "", "",
    jsOr params.udf10 "",
    jsOr params.udf9 "",
    jsOr params.udf8 "",
    jsOr params.udf7 "",
    jsOr params.udf6 "",
    jsOr params.udf5 "",
    jsOr params.udf4 "",
    jsOr params.udf3 "",
    jsOr params.udf2 "",
    jsOr params.udf1 "",
    params.email,
    params.firstname,
    params.productinfo,
    params.amount,
    params.txnid,
    params.key]

/-- `verifyPayUHash` of src/utils.ts: recompute the reverse hash and compare
(JavaScript `===`, i.e. case-sensitive string equality). -/
def verifyPayUHash (params : VerifyParams) (salt : String) (receivedHash : String) : Bool :=
  hmacSha512Hex "" (reverseHashString params salt) == receivedHash

/-- `isTerminal` of src/utils.ts (on the status field). -/
def isTerminalStatus (status : String) : Bool :=
  status == "cancelled" || status == "completed" || status == "expired"

-- ═══════════════════════════════════════════════════════════════════════════
-- Data model: subscription rows, webhook events, world state
-- ═══════════════════════════════════════════════════════════════════════════

/-- The subscription row fields the reconciliation core reads and writes.
Counters are JavaScript numbers (nullable), timestamps (`Date` values produced
by `new Date()`) are modelled as `Option Nat` clock readings. -/
structure Subscription where
  id : String
  plan : String := ""
  status : String := "created"
  payuTransactionId : Option String := none
  payuMihpayid : Option String := none
  paidCount : Option Int := none
  totalCount : Option Int := none
  remainingCount : Option Int := none
  currentStart : Option Nat := none
  cancelledAt : Option Nat := none
  endedAt : Option Nat := none
  pausedAt : Option Nat := none
  updatedAt : Option Nat := none
deriving DecidableEq

/-- `PayUWebhookEvent` of src/types.ts (the fields the core consumes). -/
structure Event where
  mihpayid : String := ""
  status : String := ""
  txnid : String := ""
  amount : String := ""
  productinfo : String := ""
  firstname : String := ""
  email : String := ""
  phone : String := ""
  hash : String := ""
  key : String := ""
  mode : String := ""
  unmappedstatus : String := ""
  field9 : String := ""
  error : String := ""
  bank_ref_num : String := ""
  addedon : String := ""
  payment_source : String := ""
  udf1 : Option String := none
  udf2 : Option String := none
  udf3 : Option String := none
  udf4 : Option String := none
  udf5 : Option String := none
  udf6 : Option String := none
  udf7 : Option String := none
  udf8 : Option String := none
  udf9 : Option String := none
  udf10 : Option String := none
  notificationType : Option String := none
deriving DecidableEq

/-- JavaScript truthiness of an optional string: absent and empty are falsy. -/
def strTruthy (o : Option String) : Bool := o.getD "" != ""

-- ─── src/metadata.ts ─────────────────────────────────────────────────────────

/-- A `PayUUdf` record: the ten optional metadata slots. -/
structure Udf where
  udf1 : Option String := none
  udf2 : Option String := none
  udf3 : Option String := none
  udf4 : Option String := none
  udf5 : Option String := none
  udf6 : Option String := none
  udf7 : Option String := none
  udf8 : Option String := none
  udf9 : Option String := none
  udf10 : Option String := none
deriving DecidableEq

/-- `paramsToUdf` of src/metadata.ts: keep only truthy (present, non-empty)
udf slots of the event. -/
def paramsToUdf (e : Event) : Udf where
  udf1 := if strTruthy e.udf1 then e.udf1 else none
  udf2 := if strTruthy e.udf2 then e.udf2 else none
  udf3 := if strTruthy e.udf3 then e.udf3 else none
  udf4 := if strTruthy e.udf4 then e.udf4 else none
  udf5 := if strTruthy e.udf5 then e.udf5 else none
  udf6 := if strTruthy e.udf6 then e.udf6 else none
  udf7 := if strTruthy e.udf7 then e.udf7 else none
  udf8 := if strTruthy e.udf8 then e.udf8 else none
  udf9 := if strTruthy e.udf9 then e.udf9 else none
  udf10 := if strTruthy e.udf10 then e.udf10 else none

structure SubscriptionUdfInfo where
  userId : Option String
  subscriptionId : Option String
  referenceId : Option String
deriving DecidableEq

/-- `subscriptionUdf.get` of src/metadata.ts: slot 2 = user id,
slot 4 = subscription id, slot 5 = reference id. -/
def subscriptionUdfGet (u : Udf) : SubscriptionUdfInfo where
  userId := u.udf2
  subscriptionId := u.udf4
  referenceId := u.udf5

-- ─── Options and plan catalog ────────────────────────────────────────────────

structure Plan where
  planId : String := ""
  name : String
deriving DecidableEq

/-- `SubscriptionOptions` (plans modelled in their list form). -/
structure SubscriptionOptions where
  enabled : Bool
  plans : Option (List Plan) := none
deriving DecidableEq

structure PayUOptions where
  subscription : Option SubscriptionOptions := none
  merchantKey : String := ""
  merchantSalt : String := ""
deriving DecidableEq

/-- Truthiness of `options.subscription?.enabled`. -/
def subEnabled (o : PayUOptions) : Bool := (o.subscription.map (·.enabled)).getD false

/-- The plan resolution every handler performs on a match:
`options.subscription.plans` (falsy → undefined) `.find((p) => p.name === sub.plan)`. -/
def resolvePlan (o : PayUOptions) (sub : Subscription) : Option Plan :=
  match o.subscription with
  | some so =>
    match so.plans with
    | some ps => ps.find? (fun p => p.name == sub.plan)
    | none => none
  | none => none

-- ─── Persistence adapter and observable world state ──────────────────────────

inductive QueryField
  | id
  | payuTransactionId
deriving DecidableEq

/-- A `findOne`/`update` where-clause on the `subscription` model. -/
structure Query where
  field : QueryField
  value : String
deriving DecidableEq

/-- A user-supplied callback invocation, as observed by the model. -/
structure CallbackCall where
  name : String
  subscriptionId : Option String
  plan : Option String
deriving DecidableEq

/-- The observable world: the subscription table plus traces of reads, writes,
log lines and callback invocations, and the current clock. -/
structure WorldState where
  db : List Subscription
  queries : List Query := []
  updates : List Query := []
  log : List String := []
  callbacks : List CallbackCall := []
  now : Nat := 0
deriving DecidableEq

/-- Fault injection: which of the awaited operations inside a handler's
try block throw. -/
structure Faults where
  findOneThrows : Bool := false
  updateThrows : Bool := false
  callbackThrows : Bool := false
deriving DecidableEq

def noFaults : Faults := {}

def allFaults : Faults := ⟨true, true, true⟩

def matchesQuery (q : Query) (s : Subscription) : Bool :=
  match q.field with
  | .id => s.id == q.value
  | .payuTransactionId => s.payuTransactionId == some q.value

/-- `adapter.findOne({ model: "subscription", where: [q] })`.  A throw carries
the world as of the throw (the read was already issued). -/
def adapterFindOne (f : Faults) (w : WorldState) (q : Query) :
    Except (String × WorldState) (WorldState × Option Subscription) :=
  let w := { w with queries := w.queries ++ [q] }
  if f.findOneThrows then .error ("adapter findOne failed", w)
  else .ok (w, w.db.find? (matchesQuery q))

/-- `adapter.update({ model: "subscription", where: [q], update })`. -/
def adapterUpdate (f : Faults) (w : WorldState) (q : Query)
    (upd : Subscription → Subscription) : Except (String × WorldState) WorldState :=
  let w := { w with updates := w.updates ++ [q] }
  if f.updateThrows then .error ("adapter update failed", w)
  else .ok { w with db := w.db.map (fun s => if matchesQuery q s then upd s else s) }

/-- An `await options.subscription.onX?.({...})` call. -/
def invokeCallback (f : Faults) (w : WorldState) (c : CallbackCall) :
    Except (String × WorldState) WorldState :=
  let w := { w with callbacks := w.callbacks ++ [c] }
  if f.callbackThrows then .error ("callback failed", w) else .ok w

def logLine (w : WorldState) (msg : String) : WorldState :=
  { w with log := w.log ++ [msg] }

-- ─── src/hooks.ts: subscription lookup ───────────────────────────────────────

/-- `findSubscriptionByTxnId` of src/hooks.ts. -/
def findSubscriptionByTxnId (f : Faults) (w : WorldState) (txnid : String) :
    Except (String × WorldState) (WorldState × Option Subscription) :=
  adapterFindOne f w ⟨.payuTransactionId, txnid⟩

/-- `findSubscriptionByUdf` of src/hooks.ts: extract udf slot 4 from the event
and, when truthy, look the subscription up by id. -/
def findSubscriptionByUdf (f : Faults) (w : WorldState) (event : Event) :
    Except (String × WorldState) (WorldState × Option Subscription) :=
  let udf := paramsToUdf event
  let subUdf := subscriptionUdfGet udf
  if strTruthy subUdf.subscriptionId then
    adapterFindOne f w ⟨.id, subUdf.subscriptionId.getD ""⟩
  else
    .ok (w, none)

/-- `findSubscription` of src/hooks.ts: first by txnid, then by UDF
subscription id. -/
def findSubscription (f : Faults) (w : WorldState) (event : Event) :
    Except (String × WorldState) (WorldState × Option Subscription) :=
  match findSubscriptionByTxnId f w event.txnid with
  | .error e => .error e
  | .ok (w, some s) => .ok (w, some s)
  | .ok (w, none) => findSubscriptionByUdf f w event

-- ─── src/hooks.ts: per-event update records ──────────────────────────────────

/-- The update record of `onPaymentSuccess`: status active, store the payment
id, increment `paidCount`, recompute `remainingCount` as
`max(totalCount - newPaidCount, 0)` when `totalCount` is non-null, else null. -/
def paymentSuccessUpdate (event : Event) (now : Nat) (sub : Subscription)
    (s : Subscription) : Subscription :=
  { s with
    status := "active"
    payuMihpayid := some event.mihpayid
    paidCount := some (sub.paidCount.getD 0 + 1)
    remainingCount :=
      match sub.totalCount with
      | some t => some (max (t - (sub.paidCount.getD 0 + 1)) 0)
      | none => none
    updatedAt := some now }

/-- The update record of `onPaymentFailure`. -/
def paymentFailureUpdate (now : Nat) (s : Subscription) : Subscription :=
  { s with status := "pending", updatedAt := some now }

/-- The update record of `onSubscriptionActivated`. -/
def subscriptionActivatedUpdate (event : Event) (now : Nat) (s : Subscription) : Subscription :=
  { s with
    status := "active"
    payuMihpayid := some event.mihpayid
    currentStart := some now
    updatedAt := some now }

/-- The update record of `onSubscriptionCharged` (`newPaidCount` and
`newRemainingCount` as computed there). -/
def subscriptionChargedUpdate (event : Event) (now : Nat) (sub : Subscription)
    (s : Subscription) : Subscription :=
  let newPaidCount := sub.paidCount.getD 0 + 1
  let newRemainingCount :=
    match sub.totalCount with
    | some t => some (max (t - newPaidCount) 0)
    | none => none
  { s with
    status := "active"
    paidCount := some newPaidCount
    remainingCount := newRemainingCount
    payuMihpayid := some event.mihpayid
    updatedAt := some now }

/-- The update record of `onSubscriptionPending`. -/
def subscriptionPendingUpdate (now : Nat) (s : Subscription) : Subscription :=
  { s with status := "pending", updatedAt := some now }

/-- The update record of `onSubscriptionHalted`. -/
def subscriptionHaltedUpdate (now : Nat) (s : Subscription) : Subscription :=
  { s with status := "halted", updatedAt := some now }

/-- The update record of `onSubscriptionCompleted`. -/
def subscriptionCompletedUpdate (now : Nat) (s : Subscription) : Subscription :=
  { s with status := "completed", endedAt := some now, remainingCount := some 0,
           updatedAt := some now }

/-- The update record of `onSubscriptionCancelled`. -/
def subscriptionCancelledUpdate (now : Nat) (s : Subscription) : Subscription :=
  { s with status := "cancelled", cancelledAt := some now, endedAt := some now,
           updatedAt := some now }

/-- The update record of `onSubscriptionPaused`. -/
def subscriptionPausedUpdate (now : Nat) (s : Subscription) : Subscription :=
  { s with status := "paused", pausedAt := some now, updatedAt := some now }

/-- The update record of `onSubscriptionResumed` (clears `pausedAt`). -/
def subscriptionResumedUpdate (now : Nat) (s : Subscription) : Subscription :=
  { s with status := "active", pausedAt := none, updatedAt := some now }

/-- The update record of `onMandateRevoked` (same fields as cancellation). -/
def mandateRevokedUpdate (now : Nat) (s : Subscription) : Subscription :=
  { s with status := "cancelled", cancelledAt := some now, endedAt := some now,
           updatedAt := some now }

/-- The update record of `onMandateModified` (touches `updatedAt` only). -/
def mandateModifiedUpdate (now : Nat) (s : Subscription) : Subscription :=
  { s with updatedAt := some now }

-- ─── src/hooks.ts: webhook handlers ──────────────────────────────────────────

/-- The catch clause every handler wraps its body in: it logs
"PayU <name> error: ..." through the context logger and swallows the
exception.  The carried world keeps the side effects applied before the
throw. -/
def runHook (hookName : String) (body : Except (String × WorldState) WorldState) : WorldState :=
  match body with
  | .ok w => w
  | .error (e, w) => logLine w ("PayU " ++ hookName ++ " error: " ++ e)

/-- `onPaymentSuccess` of src/hooks.ts: guarded on subscriptions being
enabled and a non-empty txnid. -/
def onPaymentSuccess (opts : PayUOptions) (f : Faults) (event : Event)
    (w : WorldState) : WorldState :=
  if !subEnabled opts then w
  else if event.txnid = "" then w
  else runHook "onPaymentSuccess" (
    match findSubscription f w event with
    | .error e => .error e
    | .ok (w, some sub) =>
      match adapterUpdate f w ⟨.id, sub.id⟩ (paymentSuccessUpdate event w.now sub) with
      | .error e => .error e
      | .ok w =>
        invokeCallback f w ⟨"onPaymentSuccess", some sub.id, (resolvePlan opts sub).map (·.name)⟩
    | .ok (w, none) =>
      .ok (logLine w ("PayU: payment success for txnid " ++ event.txnid ++
        " but subscription not found")))

/-- `onPaymentFailure` of src/hooks.ts: no txnid guard; the failure callback
fires whether or not a subscription matched. -/
def onPaymentFailure (opts : PayUOptions) (f : Faults) (event : Event)
    (w : WorldState) : WorldState :=
  if !subEnabled opts then w
  else runHook "onPaymentFailure" (
    match findSubscription f w event with
    | .error e => .error e
    | .ok (w, some sub) =>
      match adapterUpdate f w ⟨.id, sub.id⟩ (paymentFailureUpdate w.now) with
      | .error e => .error e
      | .ok w => invokeCallback f w ⟨"onPaymentFailure", none, none⟩
    | .ok (w, none) => invokeCallback f w ⟨"onPaymentFailure", none, none⟩)

/-- `onSubscriptionActivated` of src/hooks.ts. -/
def onSubscriptionActivated (opts : PayUOptions) (f : Faults) (event : Event)
    (w : WorldState) : WorldState :=
  if !subEnabled opts then w
  else if event.txnid = "" then w
  else runHook "onSubscriptionActivated" (
    match findSubscription f w event with
    | .error e => .error e
    | .ok (w, some sub) =>
      match adapterUpdate f w ⟨.id, sub.id⟩ (subscriptionActivatedUpdate event w.now) with
      | .error e => .error e
      | .ok w =>
        invokeCallback f w ⟨"onSubscriptionActivated", some sub.id, (resolvePlan opts sub).map (·.name)⟩
    | .ok (w, none) =>
      .ok (logLine w ("PayU: subscription activated for txnid " ++ event.txnid ++
        " but subscription not found")))

/-- `onSubscriptionCharged` of src/hooks.ts. -/
def onSubscriptionCharged (opts : PayUOptions) (f : Faults) (event : Event)
    (w : WorldState) : WorldState :=
  if !subEnabled opts then w
  else if event.txnid = "" then w
  else runHook "onSubscriptionCharged" (
    match findSubscription f w event with
    | .error e => .error e
    | .ok (w, some sub) =>
      match adapterUpdate f w ⟨.id, sub.id⟩ (subscriptionChargedUpdate event w.now sub) with
      | .error e => .error e
      | .ok w =>
        invokeCallback f w ⟨"onSubscriptionCharged", some sub.id, (resolvePlan opts sub).map (·.name)⟩
    | .ok (w, none) =>
      .ok (logLine w ("PayU: subscription charged for txnid " ++ event.txnid ++
        " but subscription not found")))

/-- `onSubscriptionPending` of src/hooks.ts. -/
def onSubscriptionPending (opts : PayUOptions) (f : Faults) (event : Event)
    (w : WorldState) : WorldState :=
  if !subEnabled opts then w
  else runHook "onSubscriptionPending" (
    match findSubscription f w event with
    | .error e => .error e
    | .ok (w, some sub) =>
      match adapterUpdate f w ⟨.id, sub.id⟩ (subscriptionPendingUpdate w.now) with
      | .error e => .error e
      | .ok w =>
        invokeCallback f w ⟨"onSubscriptionPending", some sub.id, (resolvePlan opts sub).map (·.name)⟩
    | .ok (w, none) => .ok w)

/-- `onSubscriptionHalted` of src/hooks.ts. -/
def onSubscriptionHalted (opts : PayUOptions) (f : Faults) (event : Event)
    (w : WorldState) : WorldState :=
  if !subEnabled opts then w
  else runHook "onSubscriptionHalted" (
    match findSubscription f w event with
    | .error e => .error e
    | .ok (w, some sub) =>
      match adapterUpdate f w ⟨.id, sub.id⟩ (subscriptionHaltedUpdate w.now) with
      | .error e => .error e
      | .ok w =>
        invokeCallback f w ⟨"onSubscriptionHalted", some sub.id, (resolvePlan opts sub).map (·.name)⟩
    | .ok (w, none) => .ok w)

/-- `onSubscriptionCompleted` of src/hooks.ts. -/
def onSubscriptionCompleted (opts : PayUOptions) (f : Faults) (event : Event)
    (w : WorldState) : WorldState :=
  if !subEnabled opts then w
  else runHook "onSubscriptionCompleted" (
    match findSubscription f w event with
    | .error e => .error e
    | .ok (w, some sub) =>
      match adapterUpdate f w ⟨.id, sub.id⟩ (subscriptionCompletedUpdate w.now) with
      | .error e => .error e
      | .ok w =>
        invokeCallback f w ⟨"onSubscriptionCompleted", some sub.id, (resolvePlan opts sub).map (·.name)⟩
    | .ok (w, none) => .ok w)

/-- `onSubscriptionCancelled` of src/hooks.ts: note there is no guard on the
current status — a matched subscription is updated and the callback invoked
unconditionally, terminal or not. -/
def onSubscriptionCancelled (opts : PayUOptions) (f : Faults) (event : Event)
    (w : WorldState) : WorldState :=
  if !subEnabled opts then w
  else runHook "onSubscriptionCancelled" (
    match findSubscription f w event with
    | .error e => .error e
    | .ok (w, some sub) =>
      match adapterUpdate f w ⟨.id, sub.id⟩ (subscriptionCancelledUpdate w.now) with
      | .error e => .error e
      | .ok w =>
        invokeCallback f w ⟨"onSubscriptionCancelled", some sub.id, (resolvePlan opts sub).map (·.name)⟩
    | .ok (w, none) =>
      .ok (logLine w ("PayU: subscription cancelled for txnid " ++ event.txnid ++
        " but subscription not found")))

/-- `onSubscriptionPaused` of src/hooks.ts. -/
def onSubscriptionPaused (opts : PayUOptions) (f : Faults) (event : Event)
    (w : WorldState) : WorldState :=
  if !subEnabled opts then w
  else runHook "onSubscriptionPaused" (
    match findSubscription f w event with
    | .error e => .error e
    | .ok (w, some sub) =>
      match adapterUpdate f w ⟨.id, sub.id⟩ (subscriptionPausedUpdate w.now) with
      | .error e => .error e
      | .ok w =>
        invokeCallback f w ⟨"onSubscriptionPaused", some sub.id, (resolvePlan opts sub).map (·.name)⟩
    | .ok (w, none) => .ok w)

/-- `onSubscriptionResumed` of src/hooks.ts. -/
def onSubscriptionResumed (opts : PayUOptions) (f : Faults) (event : Event)
    (w : WorldState) : WorldState :=
  if !subEnabled opts then w
  else runHook "onSubscriptionResumed" (
    match findSubscription f w event with
    | .error e => .error e
    | .ok (w, some sub) =>
      match adapterUpdate f w ⟨.id, sub.id⟩ (subscriptionResumedUpdate w.now) with
      | .error e => .error e
      | .ok w =>
        invokeCallback f w ⟨"onSubscriptionResumed", some sub.id, (resolvePlan opts sub).map (·.name)⟩
    | .ok (w, none) => .ok w)

/-- `onMandateRevoked` of src/hooks.ts. -/
def onMandateRevoked (opts : PayUOptions) (f : Faults) (event : Event)
    (w : WorldState) : WorldState :=
  if !subEnabled opts then w
  else runHook "onMandateRevoked" (
    match findSubscription f w event with
    | .error e => .error e
    | .ok (w, some sub) =>
      match adapterUpdate f w ⟨.id, sub.id⟩ (mandateRevokedUpdate w.now) with
      | .error e => .error e
      | .ok w =>
        invokeCallback f w ⟨"onMandateRevoked", some sub.id, (resolvePlan opts sub).map (·.name)⟩
    | .ok (w, none) => .ok w)

/-- `onMandateModified` of src/hooks.ts. -/
def onMandateModified (opts : PayUOptions) (f : Faults) (event : Event)
    (w : WorldState) : WorldState :=
  if !subEnabled opts then w
  else runHook "onMandateModified" (
    match findSubscription f w event with
    | .error e => .error e
    | .ok (w, some sub) =>
      match adapterUpdate f w ⟨.id, sub.id⟩ (mandateModifiedUpdate w.now) with
      | .error e => .error e
      | .ok w =>
        invokeCallback f w ⟨"onMandateModified", some sub.id, (resolvePlan opts sub).map (·.name)⟩
    | .ok (w, none) => .ok w)

-- ═══════════════════════════════════════════════════════════════════════════
-- src/routes.ts: webhook endpoint
-- ═══════════════════════════════════════════════════════════════════════════

/-- The webhook request body: `ctx.body as Record<string, string>`, so every
field may be absent. -/
structure Body where
  mihpayid : Option String := none
  status : Option String := none
  txnid : Option String := none
  amount : Option String := none
  productinfo : Option String := none
  firstname : Option String := none
  email : Option String := none
  phone : Option String := none
  hash : Option String := none
  key : Option String := none
  mode : Option String := none
  unmappedstatus : Option String := none
  field9 : Option String := none
  error_Message : Option String := none
  error : Option String := none
  bank_ref_num : Option String := none
  addedon : Option String := none
  payment_source : Option String := none
  udf1 : Option String := none
  udf2 : Option String := none
  udf3 : Option String := none
  udf4 : Option String := none
  udf5 : Option String := none
  udf6 : Option String := none
  udf7 : Option String := none
  udf8 : Option String := none
  udf9 : Option String := none
  udf10 : Option String := none
  notificationType : Option String := none
deriving DecidableEq

/-- The parameter object the webhook passes to `verifyPayUHash`
(`key: body.key || options.merchantKey`, strings defaulted to `""`). -/
def buildVerifyParams (opts : PayUOptions) (body : Body) : VerifyParams where
  key := jsOr body.key opts.merchantKey
  txnid := jsOr body.txnid ""
  amount := jsOr body.amount ""
  productinfo := jsOr body.productinfo ""
  firstname := jsOr body.firstname ""
  email := jsOr body.email ""
  status := jsOr body.status ""
  udf1 := body.udf1
  udf2 := body.udf2
  udf3 := body.udf3
  udf4 := body.udf4
  udf5 := body.udf5
  udf6 := body.udf6
  udf7 := body.udf7
  udf8 := body.udf8
  udf9 := body.udf9
  udf10 := body.udf10

/-- The `event: PayUWebhookEvent` object the webhook builds from the body. -/
def buildEvent (body : Body) : Event where
  mihpayid := jsOr body.mihpayid ""
  status := jsOr body.status ""
  txnid := jsOr body.txnid ""
  amount := jsOr body.amount ""
  productinfo := jsOr body.productinfo ""
  firstname := jsOr body.firstname ""
  email := jsOr body.email ""
  phone := jsOr body.phone ""
  hash := body.hash.getD ""
  key := jsOr body.key ""
  mode := jsOr body.mode ""
  unmappedstatus := jsOr body.unmappedstatus ""
  field9 := jsOr body.field9 ""
  error := jsOr body.error_Message (jsOr body.error "")
  bank_ref_num := jsOr body.bank_ref_num ""
  addedon := jsOr body.addedon ""
  payment_source := jsOr body.payment_source ""
  udf1 := body.udf1
  udf2 := body.udf2
  udf3 := body.udf3
  udf4 := body.udf4
  udf5 := body.udf5
  udf6 := body.udf6
  udf7 := body.udf7
  udf8 := body.udf8
  udf9 := body.udf9
  udf10 := body.udf10
  notificationType := body.notificationType

/-- JavaScript `.toLowerCase()`: lower-case the characters.  (`String.toLower`
itself is not kernel-reducible, so the map is spelled at the character level.) -/
def strToLower (s : String) : String := ⟨s.data.map Char.toLower⟩

/-- `ctx.json({ success: true })`. -/
structure WebhookResponse where
  success : Bool
deriving DecidableEq

/-- The status/notification-type routing cascade of the webhook endpoint
(src/routes.ts), after hash verification. -/
def webhookDispatch (opts : PayUOptions) (f : Faults) (body : Body)
    (w : WorldState) : WorldState × WebhookResponse :=
  let event := buildEvent body
  let status := body.status.map strToLower
  let notifType := body.notificationType.map strToLower
  let w :=
    if notifType = some "mandate_revoked" ∨ notifType = some "si_cancelled" then
      onMandateRevoked opts f event w
    else if notifType = some "mandate_modified" ∨ notifType = some "si_modified" then
      onMandateModified opts f event w
    else if status = some "success" ∨ status = some "captured" then
      onSubscriptionActivated opts f event (onPaymentSuccess opts f event w)
    else if status = some "failure" ∨ status = some "failed" then
      onPaymentFailure opts f event w
    else if status = some "pending" then
      onSubscriptionPending opts f event w
    else if status = some "cancelled" then
      onSubscriptionCancelled opts f event w
    else if status = some "halted" then
      onSubscriptionHalted opts f event w
    else if status = some "completed" then
      onSubscriptionCompleted opts f event w
    else if status = some "paused" then
      onSubscriptionPaused opts f event w
    else if status = some "resumed" ∨ status = some "active" then
      onSubscriptionResumed opts f event w
    else w
  (w, ⟨true⟩)

/-- The full webhook endpoint: reject a missing hash, verify the reverse hash,
then dispatch.  Only the two pre-dispatch rejections can surface an error. -/
def webhook (opts : PayUOptions) (f : Faults) (body : Body) (w : WorldState) :
    Except String (WorldState × WebhookResponse) :=
  if !strTruthy body.hash then .error "WEBHOOK_HASH_NOT_FOUND"
  else if verifyPayUHash (buildVerifyParams opts body) opts.merchantSalt (body.hash.getD "") then
    .ok (webhookDispatch opts f body w)
  else .error "FAILED_TO_VERIFY_WEBHOOK"

end PayU

namespace PayU
example (opts : PayUOptions) (ev : Event) (w : WorldState) (sub : Subscription)
    (h1 : subEnabled opts = true) (h2 : ev.txnid ≠ "")
    (h3 : w.db.find? (matchesQuery ⟨.payuTransactionId, ev.txnid⟩) = some sub) :
    onPaymentSuccess opts noFaults ev w =
      { w with
        db := w.db.map (fun s => if matchesQuery ⟨.id, sub.id⟩ s then
                paymentSuccessUpdate ev w.now sub s else s)
        queries := w.queries ++ [⟨.payuTransactionId, ev.txnid⟩]
        updates := w.updates ++ [⟨.id, sub.id⟩]
        callbacks := w.callbacks ++ [⟨"onPaymentSuccess", some sub.id, (resolvePlan opts sub).map (·.name)⟩] } := by
  simp [onPaymentSuccess, h1, h2, runHook, findSubscription, findSubscriptionByTxnId,
        adapterFindOne, noFaults, h3, adapterUpdate, invokeCallback]

example (opts : PayUOptions) (f : Faults) (body : Body) (w : WorldState) (n : String)
    (hn : body.notificationType = some n)
    (h : strToLower n = "mandate_revoked" ∨ strToLower n = "si_cancelled") :
    webhookDispatch opts f body w = (onMandateRevoked opts f (buildEvent body) w, ⟨true⟩) := by
  rcases h with h | h <;> simp [webhookDispatch, hn, h]

example (opts : PayUOptions) (f : Faults) (body : Body) (w : WorldState)
    (hn1 : body.notificationType.map strToLower ≠ some "mandate_revoked")
    (hn2 : body.notificationType.map strToLower ≠ some "si_cancelled")
    (hn3 : body.notificationType.map strToLower ≠ some "mandate_modified")
    (hn4 : body.notificationType.map strToLower ≠ some "si_modified")
    (hs1 : body.status.map strToLower ≠ some "success")
    (hs2 : body.status.map strToLower ≠ some "captured")
    (hs3 : body.status.map strToLower ≠ some "failure")
    (hs4 : body.status.map strToLower ≠ some "failed")
    (hs5 : body.status.map strToLower ≠ some "pending")
    (hs6 : body.status.map strToLower ≠ some "cancelled")
    (hs7 : body.status.map strToLower ≠ some "halted")
    (hs8 : body.status.map strToLower ≠ some "completed")
    (hs9 : body.status.map strToLower ≠ some "paused")
    (hs10 : body.status.map strToLower ≠ some "resumed")
    (hs11 : body.status.map strToLower ≠ some "active") :
    webhookDispatch opts f body w = (w, ⟨true⟩) := by
  simp [webhookDispatch, hn1, hn2, hn3, hn4, hs1, hs2, hs3, hs4, hs5, hs6, hs7, hs8, hs9, hs10, hs11]

-- ═══════════════════════════════════════════════════════════════════════════
-- Shared lemmas about unmatched lookups
-- ═══════════════════════════════════════════════════════════════════════════

/-- When truthiness of an optional string holds, it is a non-empty `some`. -/
theorem strTruthy_eq_true {o : Option String} (h : strTruthy o = true) :
    ∃ s, o = some s ∧ s ≠ "" := by
  cases o with
  | none => simp [strTruthy] at h
  | some s => exact ⟨s, rfl, by simpa [strTruthy] using h⟩

/-- If neither the txnid lookup nor the udf4 lookup can match, `findSubscription`
returns no subscription and no error, having only issued reads. -/
theorem findSubscription_unmatched (w : WorldState) (ev : Event)
    (hfind : w.db.find? (matchesQuery ⟨.payuTransactionId, ev.txnid⟩) = none)
    (hudf : ∀ sid, ev.udf4 = some sid → sid ≠ "" →
      w.db.find? (matchesQuery ⟨.id, sid⟩) = none) :
    ∃ qs, findSubscription noFaults w ev =
      .ok ({ w with queries := w.queries ++ qs }, none) := by
  by_cases ht : strTruthy ev.udf4 = true
  · obtain ⟨sid, hsid, hne⟩ := strTruthy_eq_true ht
    refine ⟨[⟨.payuTransactionId, ev.txnid⟩, ⟨.id, sid⟩], ?_⟩
    simp [findSubscription, findSubscriptionByTxnId, adapterFindOne, noFaults, hfind,
      findSubscriptionByUdf, paramsToUdf, subscriptionUdfGet, hsid, strTruthy, hne,
      hudf sid hsid hne]
  · refine ⟨[⟨.payuTransactionId, ev.txnid⟩], ?_⟩
    have hempty : ev.udf4.getD "" = "" := by
      simpa [strTruthy] using ht
    simp [findSubscription, findSubscriptionByTxnId, adapterFindOne, noFaults, hfind,
      findSubscriptionByUdf, paramsToUdf, subscriptionUdfGet, strTruthy, hempty]

theorem noFaults_findOneThrows : noFaults.findOneThrows = false := rfl

theorem noFaults_updateThrows : noFaults.updateThrows = false := rfl

theorem noFaults_callbackThrows : noFaults.callbackThrows = false := rfl

/-- With no matching subscription, `onPaymentSuccess` performs no write. -/
theorem onPaymentSuccess_unmatched_frame (opts : PayUOptions) (ev : Event) (w : WorldState)
    (hfind : w.db.find? (matchesQuery ⟨.payuTransactionId, ev.txnid⟩) = none)
    (hudf : ∀ sid, ev.udf4 = some sid → sid ≠ "" →
      w.db.find? (matchesQuery ⟨.id, sid⟩) = none) :
    (onPaymentSuccess opts noFaults ev w).db = w.db ∧
    (onPaymentSuccess opts noFaults ev w).updates = w.updates := by
  obtain ⟨qs, hq⟩ := findSubscription_unmatched w ev hfind hudf
  by_cases he : subEnabled opts
  · by_cases htx : ev.txnid = ""
    · simp [onPaymentSuccess, he, htx]
    · simp [onPaymentSuccess, he, htx, runHook, hq, invokeCallback, noFaults_callbackThrows, logLine]
  · simp [onPaymentSuccess, he]

/-- With no matching subscription, `onSubscriptionActivated` performs no write. -/
theorem onSubscriptionActivated_unmatched_frame (opts : PayUOptions) (ev : Event) (w : WorldState)
    (hfind : w.db.find? (matchesQuery ⟨.payuTransactionId, ev.txnid⟩) = none)
    (hudf : ∀ sid, ev.udf4 = some sid → sid ≠ "" →
      w.db.find? (matchesQuery ⟨.id, sid⟩) = none) :
    (onSubscriptionActivated opts noFaults ev w).db = w.db ∧
    (onSubscriptionActivated opts noFaults ev w).updates = w.updates := by
  obtain ⟨qs, hq⟩ := findSubscription_unmatched w ev hfind hudf
  by_cases he : subEnabled opts
  · by_cases htx : ev.txnid = ""
    · simp [onSubscriptionActivated, he, htx]
    · simp [onSubscriptionActivated, he, htx, runHook, hq, invokeCallback, noFaults_callbackThrows, logLine]
  · simp [onSubscriptionActivated, he]

/-- With no matching subscription, `onSubscriptionCharged` performs no write. -/
theorem onSubscriptionCharged_unmatched_frame (opts : PayUOptions) (ev : Event) (w : WorldState)
    (hfind : w.db.find? (matchesQuery ⟨.payuTransactionId, ev.txnid⟩) = none)
    (hudf : ∀ sid, ev.udf4 = some sid → sid ≠ "" →
      w.db.find? (matchesQuery ⟨.id, sid⟩) = none) :
    (onSubscriptionCharged opts noFaults ev w).db = w.db ∧
    (onSubscriptionCharged opts noFaults ev w).updates = w.updates := by
  obtain ⟨qs, hq⟩ := findSubscription_unmatched w ev hfind hudf
  by_cases he : subEnabled opts
  · by_cases htx : ev.txnid = ""
    · simp [onSubscriptionCharged, he, htx]
    · simp [onSubscriptionCharged, he, htx, runHook, hq, invokeCallback, noFaults_callbackThrows, logLine]
  · simp [onSubscriptionCharged, he]

/-- With no matching subscription, `onPaymentFailure` performs no write. -/
theorem onPaymentFailure_unmatched_frame (opts : PayUOptions) (ev : Event) (w : WorldState)
    (hfind : w.db.find? (matchesQuery ⟨.payuTransactionId, ev.txnid⟩) = none)
    (hudf : ∀ sid, ev.udf4 = some sid → sid ≠ "" →
      w.db.find? (matchesQuery ⟨.id, sid⟩) = none) :
    (onPaymentFailure opts noFaults ev w).db = w.db ∧
    (onPaymentFailure opts noFaults ev w).updates = w.updates := by
  obtain ⟨qs, hq⟩ := findSubscription_unmatched w ev hfind hudf
  by_cases he : subEnabled opts
  · simp [onPaymentFailure, he, runHook, hq, invokeCallback, noFaults_callbackThrows, logLine]
  · simp [onPaymentFailure, he]

/-- With no matching subscription, `onSubscriptionPending` performs no write. -/
theorem onSubscriptionPending_unmatched_frame (opts : PayUOptions) (ev : Event) (w : WorldState)
    (hfind : w.db.find? (matchesQuery ⟨.payuTransactionId, ev.txnid⟩) = none)
    (hudf : ∀ sid, ev.udf4 = some sid → sid ≠ "" →
      w.db.find? (matchesQuery ⟨.id, sid⟩) = none) :
    (onSubscriptionPending opts noFaults ev w).db = w.db ∧
    (onSubscriptionPending opts noFaults ev w).updates = w.updates := by
  obtain ⟨qs, hq⟩ := findSubscription_unmatched w ev hfind hudf
  by_cases he : subEnabled opts
  · simp [onSubscriptionPending, he, runHook, hq, invokeCallback, noFaults_callbackThrows, logLine]
  · simp [onSubscriptionPending, he]

/-- With no matching subscription, `onSubscriptionHalted` performs no write. -/
theorem onSubscriptionHalted_unmatched_frame (opts : PayUOptions) (ev : Event) (w : WorldState)
    (hfind : w.db.find? (matchesQuery ⟨.payuTransactionId, ev.txnid⟩) = none)
    (hudf : ∀ sid, ev.udf4 = some sid → sid ≠ "" →
      w.db.find? (matchesQuery ⟨.id, sid⟩) = none) :
    (onSubscriptionHalted opts noFaults ev w).db = w.db ∧
    (onSubscriptionHalted opts noFaults ev w).updates = w.updates := by
  obtain ⟨qs, hq⟩ := findSubscription_unmatched w ev hfind hudf
  by_cases he : subEnabled opts
  · simp [onSubscriptionHalted, he, runHook, hq, invokeCallback, noFaults_callbackThrows, logLine]
  · simp [onSubscriptionHalted, he]

/-- With no matching subscription, `onSubscriptionCompleted` performs no write. -/
theorem onSubscriptionCompleted_unmatched_frame (opts : PayUOptions) (ev : Event) (w : WorldState)
    (hfind : w.db.find? (matchesQuery ⟨.payuTransactionId, ev.txnid⟩) = none)
    (hudf : ∀ sid, ev.udf4 = some sid → sid ≠ "" →
      w.db.find? (matchesQuery ⟨.id, sid⟩) = none) :
    (onSubscriptionCompleted opts noFaults ev w).db = w.db ∧
    (onSubscriptionCompleted opts noFaults ev w).updates = w.updates := by
  obtain ⟨qs, hq⟩ := findSubscription_unmatched w ev hfind hudf
  by_cases he : subEnabled opts
  · simp [onSubscriptionCompleted, he, runHook, hq, invokeCallback, noFaults_callbackThrows, logLine]
  · simp [onSubscriptionCompleted, he]

/-- With no matching subscription, `onSubscriptionCancelled` performs no write. -/
theorem onSubscriptionCancelled_unmatched_frame (opts : PayUOptions) (ev : Event) (w : WorldState)
    (hfind : w.db.find? (matchesQuery ⟨.payuTransactionId, ev.txnid⟩) = none)
    (hudf : ∀ sid, ev.udf4 = some sid → sid ≠ "" →
      w.db.find? (matchesQuery ⟨.id, sid⟩) = none) :
    (onSubscriptionCancelled opts noFaults ev w).db = w.db ∧
    (onSubscriptionCancelled opts noFaults ev w).updates = w.updates := by
  obtain ⟨qs, hq⟩ := findSubscription_unmatched w ev hfind hudf
  by_cases he : subEnabled opts
  · simp [onSubscriptionCancelled, he, runHook, hq, invokeCallback, noFaults_callbackThrows, logLine]
  · simp [onSubscriptionCancelled, he]

/-- With no matching subscription, `onSubscriptionPaused` performs no write. -/
theorem onSubscriptionPaused_unmatched_frame (opts : PayUOptions) (ev : Event) (w : WorldState)
    (hfind : w.db.find? (matchesQuery ⟨.payuTransactionId, ev.txnid⟩) = none)
    (hudf : ∀ sid, ev.udf4 = some sid → sid ≠ "" →
      w.db.find? (matchesQuery ⟨.id, sid⟩) = none) :
    (onSubscriptionPaused opts noFaults ev w).db = w.db ∧
    (onSubscriptionPaused opts noFaults ev w).updates = w.updates := by
  obtain ⟨qs, hq⟩ := findSubscription_unmatched w ev hfind hudf
  by_cases he : subEnabled opts
  · simp [onSubscriptionPaused, he, runHook, hq, invokeCallback, noFaults_callbackThrows, logLine]
  · simp [onSubscriptionPaused, he]

/-- With no matching subscription, `onSubscriptionResumed` performs no write. -/
theorem onSubscriptionResumed_unmatched_frame (opts : PayUOptions) (ev : Event) (w : WorldState)
    (hfind : w.db.find? (matchesQuery ⟨.payuTransactionId, ev.txnid⟩) = none)
    (hudf : ∀ sid, ev.udf4 = some sid → sid ≠ "" →
      w.db.find? (matchesQuery ⟨.id, sid⟩) = none) :
    (onSubscriptionResumed opts noFaults ev w).db = w.db ∧
    (onSubscriptionResumed opts noFaults ev w).updates = w.updates := by
  obtain ⟨qs, hq⟩ := findSubscription_unmatched w ev hfind hudf
  by_cases he : subEnabled opts
  · simp [onSubscriptionResumed, he, runHook, hq, invokeCallback, noFaults_callbackThrows, logLine]
  · simp [onSubscriptionResumed, he]

/-- With no matching subscription, `onMandateRevoked` performs no write. -/
theorem onMandateRevoked_unmatched_frame (opts : PayUOptions) (ev : Event) (w : WorldState)
    (hfind : w.db.find? (matchesQuery ⟨.payuTransactionId, ev.txnid⟩) = none)
    (hudf : ∀ sid, ev.udf4 = some sid → sid ≠ "" →
      w.db.find? (matchesQuery ⟨.id, sid⟩) = none) :
    (onMandateRevoked opts noFaults ev w).db = w.db ∧
    (onMandateRevoked opts noFaults ev w).updates = w.updates := by
  obtain ⟨qs, hq⟩ := findSubscription_unmatched w ev hfind hudf
  by_cases he : subEnabled opts
  · simp [onMandateRevoked, he, runHook, hq, invokeCallback, noFaults_callbackThrows, logLine]
  · simp [onMandateRevoked, he]

/-- With no matching subscription, `onMandateModified` performs no write. -/
theorem onMandateModified_unmatched_frame (opts : PayUOptions) (ev : Event) (w : WorldState)
    (hfind : w.db.find? (matchesQuery ⟨.payuTransactionId, ev.txnid⟩) = none)
    (hudf : ∀ sid, ev.udf4 = some sid → sid ≠ "" →
      w.db.find? (matchesQuery ⟨.id, sid⟩) = none) :
    (onMandateModified opts noFaults ev w).db = w.db ∧
    (onMandateModified opts noFaults ev w).updates = w.updates := by
  obtain ⟨qs, hq⟩ := findSubscription_unmatched w ev hfind hudf
  by_cases he : subEnabled opts
  · simp [onMandateModified, he, runHook, hq, invokeCallback, noFaults_callbackThrows, logLine]
  · simp [onMandateModified, he]


-- ═══════════════════════════════════════════════════════════════════════════
-- Witness fixtures
-- ═══════════════════════════════════════════════════════════════════════════

def planPro : Plan := { name := "pro" }

def optsEnabled : PayUOptions :=
  { subscription := some { enabled := true, plans := some [planPro] }
    merchantKey := "gtKFFx"
    merchantSalt := "salt" }

-- ═══════════════════════════════════════════════════════════════════════════
-- Claim C3
-- ═══════════════════════════════════════════════════════════════════════════

/-- Claim C3: for every matched subscription, a classified success event issues
exactly one update setting status to "active", `payuMihpayid` to the event's
payment id, `paidCount` to the old `paidCount` plus one, and `remainingCount`
to `max(totalCount - newPaidCount, 0)` when `totalCount` is non-null and to
null when it is null; the charged handler issues the same update record. -/
theorem c3_success_update (opts : PayUOptions) (ev : Event) (w : WorldState)
    (sub : Subscription)
    (h1 : subEnabled opts = true) (h2 : ev.txnid ≠ "")
    (h3 : w.db.find? (matchesQuery ⟨.payuTransactionId, ev.txnid⟩) = some sub) :
    onPaymentSuccess opts noFaults ev w =
      { w with
        db := w.db.map (fun s =>
          if matchesQuery ⟨.id, sub.id⟩ s then
            { s with
              status := "active"
              payuMihpayid := some ev.mihpayid
              paidCount := some (sub.paidCount.getD 0 + 1)
              remainingCount :=
                (match sub.totalCount with
                 | some t => some (max (t - (sub.paidCount.getD 0 + 1)) 0)
                 | none => none)
              updatedAt := some w.now }
          else s)
        queries := w.queries ++ [⟨.payuTransactionId, ev.txnid⟩]
        updates := w.updates ++ [⟨.id, sub.id⟩]
        callbacks := w.callbacks ++
          [⟨"onPaymentSuccess", some sub.id, (resolvePlan opts sub).map (·.name)⟩] } ∧
    (∀ s, subscriptionChargedUpdate ev w.now sub s = paymentSuccessUpdate ev w.now sub s) := by
  constructor
  · simp [onPaymentSuccess, h1, h2, runHook, findSubscription, findSubscriptionByTxnId,
      adapterFindOne, noFaults, h3, adapterUpdate, invokeCallback, paymentSuccessUpdate]
  · intro s
    simp [subscriptionChargedUpdate, paymentSuccessUpdate]

def subC3 : Subscription :=
  { id := "s1"
    plan := "pro"
    status := "active"
    payuTransactionId := some "t1"
    paidCount := some 3
    totalCount := some 12
    remainingCount := some 9 }

def subC3n : Subscription :=
  { id := "s2"
    plan := "pro"
    status := "active"
    payuTransactionId := some "t2"
    paidCount := some 3
    totalCount := none }

def evC3 : Event := { txnid := "t1", status := "success", mihpayid := "pay1" }

def evC3n : Event := { txnid := "t2", status := "success", mihpayid := "pay2" }

/-- Witness for C3: a subscription with paidCount 3 and totalCount 12 ends with
paidCount 4 and remainingCount 8; one with null totalCount keeps a null
remainingCount. -/
theorem c3_witness :
    onPaymentSuccess optsEnabled noFaults evC3 { db := [subC3], now := 5 } =
      { db := [{ subC3 with
                 status := "active"
                 payuMihpayid := some "pay1"
                 paidCount := some 4
                 remainingCount := some 8
                 updatedAt := some 5 }]
        queries := [⟨.payuTransactionId, "t1"⟩]
        updates := [⟨.id, "s1"⟩]
        callbacks := [⟨"onPaymentSuccess", some "s1", some "pro"⟩]
        now := 5 } ∧
    onPaymentSuccess optsEnabled noFaults evC3n { db := [subC3n], now := 5 } =
      { db := [{ subC3n with
                 status := "active"
                 payuMihpayid := some "pay2"
                 paidCount := some 4
                 remainingCount := none
                 updatedAt := some 5 }]
        queries := [⟨.payuTransactionId, "t2"⟩]
        updates := [⟨.id, "s2"⟩]
        callbacks := [⟨"onPaymentSuccess", some "s2", some "pro"⟩]
        now := 5 } := by
  constructor
  · rw [(c3_success_update optsEnabled evC3 { db := [subC3], now := 5 } subC3
      (by decide) (by decide) (by decide)).1]
    decide
  · rw [(c3_success_update optsEnabled evC3n { db := [subC3n], now := 5 } subC3n
      (by decide) (by decide) (by decide)).1]
    decide

-- ═══════════════════════════════════════════════════════════════════════════
-- Claim C5
-- ═══════════════════════════════════════════════════════════════════════════

def subC5 : Subscription :=
  { id := "c1"
    plan := "pro"
    status := "cancelled"
    payuTransactionId := some "t5"
    cancelledAt := some 100
    endedAt := some 100 }

def evC5 : Event := { txnid := "t5", status := "cancelled" }

def wC5 : WorldState := { db := [subC5], now := 200 }

/-- The world after the first cancelled delivery, with the clock advanced. -/
def wC5second : WorldState :=
  { onSubscriptionCancelled optsEnabled noFaults evC5 wC5 with now := 300 }

/-- Counterexample to C5: on an already-terminal (cancelled) subscription, two
successive cancelled-classified deliveries re-fire the cancellation callback
(it appears twice) and overwrite `cancelledAt`/`endedAt` each time
(100 to 200 to 300). -/
theorem c5_counterexample :
    isTerminalStatus subC5.status = true ∧
    subC5.cancelledAt = some 100 ∧
    (onSubscriptionCancelled optsEnabled noFaults evC5 wC5).db.map (·.cancelledAt) =
      [some 200] ∧
    (onSubscriptionCancelled optsEnabled noFaults evC5 wC5second).callbacks.map (·.name) =
      ["onSubscriptionCancelled", "onSubscriptionCancelled"] ∧
    (onSubscriptionCancelled optsEnabled noFaults evC5 wC5second).db.map (·.cancelledAt) =
      [some 300] ∧
    (onSubscriptionCancelled optsEnabled noFaults evC5 wC5second).db.map (·.endedAt) =
      [some 300] := by
  decide

/-- Claim C5 as amended: a cancelled-classified event on an already-terminal
subscription still rewrites `cancelledAt`/`endedAt` to the current clock and
fires the cancellation callback on every invocation — the handler has no
terminal-status guard, so repeated delivery re-fires and overwrites. -/
theorem c5_terminal_cancel_not_idempotent (opts : PayUOptions) (ev : Event)
    (w : WorldState) (sub : Subscription)
    (h1 : subEnabled opts = true)
    (h3 : w.db.find? (matchesQuery ⟨.payuTransactionId, ev.txnid⟩) = some sub)
    (hterm : isTerminalStatus sub.status = true) :
    onSubscriptionCancelled opts noFaults ev w =
      { w with
        db := w.db.map (fun s =>
          if matchesQuery ⟨.id, sub.id⟩ s then
            { s with
              status := "cancelled"
              cancelledAt := some w.now
              endedAt := some w.now
              updatedAt := some w.now }
          else s)
        queries := w.queries ++ [⟨.payuTransactionId, ev.txnid⟩]
        updates := w.updates ++ [⟨.id, sub.id⟩]
        callbacks := w.callbacks ++
          [⟨"onSubscriptionCancelled", some sub.id, (resolvePlan opts sub).map (·.name)⟩] } := by
  simp [onSubscriptionCancelled, h1, runHook, findSubscription, findSubscriptionByTxnId,
    adapterFindOne, noFaults, h3, adapterUpdate, invokeCallback, subscriptionCancelledUpdate]

/-- Witness for the amended C5, at a terminal fixture. -/
theorem c5_witness :
    onSubscriptionCancelled optsEnabled noFaults evC5 wC5 =
      { db := [{ subC5 with
                 status := "cancelled"
                 cancelledAt := some 200
                 endedAt := some 200
                 updatedAt := some 200 }]
        queries := [⟨.payuTransactionId, "t5"⟩]
        updates := [⟨.id, "c1"⟩]
        callbacks := [⟨"onSubscriptionCancelled", some "c1", some "pro"⟩]
        now := 200 } := by
  rw [c5_terminal_cancel_not_idempotent optsEnabled evC5 wC5 subC5
    (by decide) (by decide) (by decide)]
  decide

-- ═══════════════════════════════════════════════════════════════════════════
-- Claim C8
-- ═══════════════════════════════════════════════════════════════════════════

def subC8 : Subscription :=
  { id := "s8"
    plan := "pro"
    status := "active"
    payuTransactionId := some "t8"
    paidCount := some 12
    totalCount := some 12
    remainingCount := some 0 }

def evC8 : Event := { txnid := "t8", status := "success", mihpayid := "pay8" }

/-- Counterexample to C8: on a non-terminal subscription with
paidCount = totalCount = 12 and remainingCount = 0 (the invariant holds), the
success update writes paidCount 13 and clamps remainingCount to 0, so
paidCount + remainingCount is 13, not totalCount = 12 — the increment does not
restore the invariant at the boundary. -/
theorem c8_counterexample :
    subC8.paidCount.getD 0 + subC8.remainingCount.getD 0 = subC8.totalCount.getD 0 ∧
    isTerminalStatus subC8.status = false ∧
    isTerminalStatus (paymentSuccessUpdate evC8 0 subC8 subC8).status = false ∧
    (paymentSuccessUpdate evC8 0 subC8 subC8).totalCount = some 12 ∧
    (paymentSuccessUpdate evC8 0 subC8 subC8).paidCount = some 13 ∧
    (paymentSuccessUpdate evC8 0 subC8 subC8).remainingCount = some 0 ∧
    (paymentSuccessUpdate evC8 0 subC8 subC8).paidCount.getD 0 +
      (paymentSuccessUpdate evC8 0 subC8 subC8).remainingCount.getD 0 ≠
        (paymentSuccessUpdate evC8 0 subC8 subC8).totalCount.getD 0 := by
  decide

/-- Claim C8 as amended: the success/charged updates restore
paidCount + remainingCount = totalCount on the record they write whenever the
incremented paidCount does not exceed totalCount; once paidCount reaches
totalCount, a further increment clamps remainingCount at 0 and breaks the
equality. -/
theorem c8_invariant_restored (ev : Event) (now : Nat) (sub : Subscription) (t : Int)
    (h1 : sub.totalCount = some t)
    (h2 : sub.paidCount.getD 0 + 1 ≤ t) :
    ((paymentSuccessUpdate ev now sub sub).paidCount.getD 0 +
       (paymentSuccessUpdate ev now sub sub).remainingCount.getD 0 =
         (paymentSuccessUpdate ev now sub sub).totalCount.getD 0) ∧
    ((subscriptionChargedUpdate ev now sub sub).paidCount.getD 0 +
       (subscriptionChargedUpdate ev now sub sub).remainingCount.getD 0 =
         (subscriptionChargedUpdate ev now sub sub).totalCount.getD 0) ∧
    isTerminalStatus (paymentSuccessUpdate ev now sub sub).status = false := by
  refine ⟨?_, ?_, by simp [paymentSuccessUpdate, isTerminalStatus]⟩ <;>
    simp [paymentSuccessUpdate, subscriptionChargedUpdate, h1] <;> omega

/-- Witness for the amended C8 at paidCount 3, totalCount 12. -/
theorem c8_witness :
    (paymentSuccessUpdate evC3 5 subC3 subC3).paidCount.getD 0 +
      (paymentSuccessUpdate evC3 5 subC3 subC3).remainingCount.getD 0 =
        (paymentSuccessUpdate evC3 5 subC3 subC3).totalCount.getD 0 := by
  exact (c8_invariant_restored evC3 5 subC3 12 (by decide) (by decide)).1

-- ═══════════════════════════════════════════════════════════════════════════
-- Claim C10
-- ═══════════════════════════════════════════════════════════════════════════

/-- Claim C10: with an empty txnid, `onPaymentSuccess`,
`onSubscriptionActivated` and `onSubscriptionCharged` return the world
untouched (no reads, no writes, no callbacks, no log lines), while
`onPaymentFailure` has no such guard: it still issues the txnid lookup and
fires the payment-failure callback. -/
theorem c10_txnid_guards :
    (∀ (opts : PayUOptions) (f : Faults) (ev : Event) (w : WorldState),
       ev.txnid = "" →
       onPaymentSuccess opts f ev w = w ∧
       onSubscriptionActivated opts f ev w = w ∧
       onSubscriptionCharged opts f ev w = w) ∧
    (∀ (opts : PayUOptions) (ev : Event) (w : WorldState),
       subEnabled opts = true →
       ev.txnid = "" →
       strTruthy ev.udf4 = false →
       w.db.find? (matchesQuery ⟨.payuTransactionId, ev.txnid⟩) = none →
       onPaymentFailure opts noFaults ev w =
         { w with
           queries := w.queries ++ [⟨.payuTransactionId, ev.txnid⟩]
           callbacks := w.callbacks ++ [⟨"onPaymentFailure", none, none⟩] }) := by
  constructor
  · intro opts f ev w h
    refine ⟨?_, ?_, ?_⟩ <;>
      (first
        | (by_cases he : subEnabled opts <;>
            simp [onPaymentSuccess, onSubscriptionActivated, onSubscriptionCharged, he, h]))
  · intro opts ev w he htx hudf4 hfind
    have hempty : ev.udf4.getD "" = "" := by
      simpa [strTruthy] using hudf4
    simp [onPaymentFailure, he, runHook, findSubscription, findSubscriptionByTxnId,
      adapterFindOne, noFaults_findOneThrows, hfind, findSubscriptionByUdf, paramsToUdf,
      subscriptionUdfGet, strTruthy, hempty, invokeCallback, noFaults_callbackThrows]

def evC10 : Event := { txnid := "", status := "failed" }

def wC10 : WorldState := { db := [subC3], now := 9 }

/-- Witness for C10: at an empty-txnid event, the three guarded handlers leave
the world untouched and the failure handler still reads and fires its
callback. -/
theorem c10_witness :
    onPaymentSuccess optsEnabled noFaults evC10 wC10 = wC10 ∧
    onSubscriptionActivated optsEnabled noFaults evC10 wC10 = wC10 ∧
    onSubscriptionCharged optsEnabled noFaults evC10 wC10 = wC10 ∧
    onPaymentFailure optsEnabled noFaults evC10 wC10 =
      { wC10 with
        queries := [⟨.payuTransactionId, ""⟩]
        callbacks := [⟨"onPaymentFailure", none, none⟩] } := by
  obtain ⟨hg, hf⟩ := c10_txnid_guards
  obtain ⟨ha, hb, hc⟩ := hg optsEnabled noFaults evC10 wC10 (by decide)
  refine ⟨ha, hb, hc, ?_⟩
  rw [hf optsEnabled evC10 wC10 (by decide) (by decide) (by decide) (by decide)]
  decide


-- ═══════════════════════════════════════════════════════════════════════════
-- Claim C2
-- ═══════════════════════════════════════════════════════════════════════════

/-- Claim C2: a verified event is classified first by notification type
(mandate_revoked/si_cancelled routes to the mandate-revoked handler,
mandate_modified/si_modified to the mandate-modified handler, both taking
priority over any status value — under a mandate_revoked notification a
matched subscription ends cancelled even if status says active); otherwise by
the lowercased status (success/captured runs the payment-success then the
activation handler); an event matching no branch is acknowledged with a
success response and produces no state change at all. -/
theorem c2_dispatch_classification :
    (∀ (opts : PayUOptions) (f : Faults) (body : Body) (w : WorldState) (n : String),
       body.notificationType = some n →
       strToLower n = "mandate_revoked" ∨ strToLower n = "si_cancelled" →
       webhookDispatch opts f body w =
         (onMandateRevoked opts f (buildEvent body) w, ⟨true⟩)) ∧
    (∀ (opts : PayUOptions) (f : Faults) (body : Body) (w : WorldState) (n : String),
       body.notificationType = some n →
       strToLower n = "mandate_modified" ∨ strToLower n = "si_modified" →
       webhookDispatch opts f body w =
         (onMandateModified opts f (buildEvent body) w, ⟨true⟩)) ∧
    (∀ (opts : PayUOptions) (body : Body) (w : WorldState) (n : String) (sub : Subscription),
       body.notificationType = some n →
       strToLower n = "mandate_revoked" →
       subEnabled opts = true →
       w.db.find? (matchesQuery ⟨.payuTransactionId, (buildEvent body).txnid⟩) = some sub →
       (webhookDispatch opts noFaults body w).1.db =
         w.db.map (fun s =>
           if matchesQuery ⟨.id, sub.id⟩ s then
             { s with
               status := "cancelled"
               cancelledAt := some w.now
               endedAt := some w.now
               updatedAt := some w.now }
           else s)) ∧
    (∀ (opts : PayUOptions) (f : Faults) (body : Body) (w : WorldState) (st : String),
       body.notificationType = none →
       body.status = some st →
       strToLower st = "success" ∨ strToLower st = "captured" →
       webhookDispatch opts f body w =
         (onSubscriptionActivated opts f (buildEvent body)
           (onPaymentSuccess opts f (buildEvent body) w), ⟨true⟩)) ∧
    (∀ (opts : PayUOptions) (f : Faults) (body : Body) (w : WorldState),
       body.notificationType.map strToLower ≠ some "mandate_revoked" →
       body.notificationType.map strToLower ≠ some "si_cancelled" →
       body.notificationType.map strToLower ≠ some "mandate_modified" →
       body.notificationType.map strToLower ≠ some "si_modified" →
       body.status.map strToLower ≠ some "success" →
       body.status.map strToLower ≠ some "captured" →
       body.status.map strToLower ≠ some "failure" →
       body.status.map strToLower ≠ some "failed" →
       body.status.map strToLower ≠ some "pending" →
       body.status.map strToLower ≠ some "cancelled" →
       body.status.map strToLower ≠ some "halted" →
       body.status.map strToLower ≠ some "completed" →
       body.status.map strToLower ≠ some "paused" →
       body.status.map strToLower ≠ some "resumed" →
       body.status.map strToLower ≠ some "active" →
       webhookDispatch opts f body w = (w, ⟨true⟩)) := by
  refine ⟨?_, ?_, ?_, ?_, ?_⟩
  · intro opts f body w n hn h
    rcases h with h | h <;> simp [webhookDispatch, hn, h]
  · intro opts f body w n hn h
    rcases h with h | h <;> simp [webhookDispatch, hn, h]
  · intro opts body w n sub hn hlow he hfind
    have hd : webhookDispatch opts noFaults body w =
        (onMandateRevoked opts noFaults (buildEvent body) w, ⟨true⟩) := by
      simp [webhookDispatch, hn, hlow]
    rw [hd]
    simp [onMandateRevoked, he, runHook, findSubscription, findSubscriptionByTxnId,
      adapterFindOne, noFaults, hfind, adapterUpdate, invokeCallback, mandateRevokedUpdate]
  · intro opts f body w st hn hst h
    rcases h with h | h <;> simp [webhookDispatch, hn, hst, h]
  · intro opts f body w hn1 hn2 hn3 hn4 hs1 hs2 hs3 hs4 hs5 hs6 hs7 hs8 hs9 hs10 hs11
    simp [webhookDispatch, hn1, hn2, hn3, hn4, hs1, hs2, hs3, hs4, hs5, hs6, hs7,
      hs8, hs9, hs10, hs11]

def subC2 : Subscription :=
  { id := "m1"
    plan := "pro"
    status := "active"
    payuTransactionId := some "t2w" }

def bodyC2 : Body :=
  { txnid := some "t2w"
    status := some "active"
    notificationType := some "mandate_revoked"
    hash := some "h" }

def wC2 : WorldState := { db := [subC2], now := 7 }

/-- Witness for C2: a mandate_revoked notification with a simultaneous
status=active leaves the matched subscription cancelled, not active, and an
unrecognized status with no notification type changes nothing and is
acknowledged. -/
theorem c2_witness :
    webhookDispatch optsEnabled noFaults bodyC2 wC2 =
      (onMandateRevoked optsEnabled noFaults (buildEvent bodyC2) wC2, ⟨true⟩) ∧
    (webhookDispatch optsEnabled noFaults bodyC2 wC2).1.db.map (·.status) =
      ["cancelled"] ∧
    webhookDispatch optsEnabled noFaults
        { status := some "weird", hash := some "h" } wC2 = (wC2, ⟨true⟩) := by
  obtain ⟨h1, _h2, h3, _h4, h5⟩ := c2_dispatch_classification
  refine ⟨h1 optsEnabled noFaults bodyC2 wC2 "mandate_revoked" rfl (Or.inl (by decide)), ?_, ?_⟩
  · rw [h3 optsEnabled bodyC2 wC2 "mandate_revoked" subC2 rfl (by decide) (by decide)
      (by decide)]
    decide
  · exact h5 optsEnabled noFaults _ wC2 (by decide) (by decide) (by decide) (by decide)
      (by decide) (by decide) (by decide) (by decide) (by decide) (by decide) (by decide)
      (by decide) (by decide) (by decide) (by decide)


-- ═══════════════════════════════════════════════════════════════════════════
-- Claim C4
-- ═══════════════════════════════════════════════════════════════════════════

/-- Claim C4: subscription lookup queries by the stored gateway transaction id
first and returns that match outright (so on conflict the txnid match wins);
only when it finds nothing does it fall back to the udf4 subscription id; and
when neither lookup succeeds the event is dropped — no error reaches the
dispatcher, no row is written, and the webhook still acknowledges success. -/
theorem c4_lookup_order :
    (∀ (w : WorldState) (ev : Event) (sub : Subscription),
       w.db.find? (matchesQuery ⟨.payuTransactionId, ev.txnid⟩) = some sub →
       findSubscription noFaults w ev =
         .ok ({ w with queries := w.queries ++ [⟨.payuTransactionId, ev.txnid⟩] }, some sub)) ∧
    (∀ (w : WorldState) (ev : Event),
       w.db.find? (matchesQuery ⟨.payuTransactionId, ev.txnid⟩) = none →
       findSubscription noFaults w ev =
         findSubscriptionByUdf noFaults
           { w with queries := w.queries ++ [⟨.payuTransactionId, ev.txnid⟩] } ev) ∧
    (∀ (opts : PayUOptions) (body : Body) (w : WorldState),
       w.db.find? (matchesQuery ⟨.payuTransactionId, jsOr body.txnid ""⟩) = none →
       (∀ sid, body.udf4 = some sid → sid ≠ "" →
         w.db.find? (matchesQuery ⟨.id, sid⟩) = none) →
       (webhookDispatch opts noFaults body w).1.db = w.db ∧
       (webhookDispatch opts noFaults body w).1.updates = w.updates ∧
       (webhookDispatch opts noFaults body w).2 = ⟨true⟩) := by
  refine ⟨?_, ?_, ?_⟩
  · intro w ev sub h
    simp [findSubscription, findSubscriptionByTxnId, adapterFindOne, noFaults, h]
  · intro w ev h
    simp [findSubscription, findSubscriptionByTxnId, adapterFindOne, noFaults, h]
  · intro opts body w hfind hudf
    have hfind' : w.db.find?
        (matchesQuery ⟨.payuTransactionId, (buildEvent body).txnid⟩) = none := hfind
    have hudf' : ∀ sid, (buildEvent body).udf4 = some sid → sid ≠ "" →
        w.db.find? (matchesQuery ⟨.id, sid⟩) = none := hudf
    have key : (webhookDispatch opts noFaults body w).1.db = w.db ∧
        (webhookDispatch opts noFaults body w).1.updates = w.updates := by
      simp only [webhookDispatch]
      split
      · exact onMandateRevoked_unmatched_frame opts (buildEvent body) w hfind' hudf'
      split
      · exact onMandateModified_unmatched_frame opts (buildEvent body) w hfind' hudf'
      split
      · obtain ⟨hdb1, hup1⟩ :=
          onPaymentSuccess_unmatched_frame opts (buildEvent body) w hfind' hudf'
        obtain ⟨hdb2, hup2⟩ :=
          onSubscriptionActivated_unmatched_frame opts (buildEvent body)
            (onPaymentSuccess opts noFaults (buildEvent body) w)
            (by rw [hdb1]; exact hfind')
            (fun sid h1 h2 => by rw [hdb1]; exact hudf' sid h1 h2)
        exact ⟨hdb2.trans hdb1, hup2.trans hup1⟩
      split
      · exact onPaymentFailure_unmatched_frame opts (buildEvent body) w hfind' hudf'
      split
      · exact onSubscriptionPending_unmatched_frame opts (buildEvent body) w hfind' hudf'
      split
      · exact onSubscriptionCancelled_unmatched_frame opts (buildEvent body) w hfind' hudf'
      split
      · exact onSubscriptionHalted_unmatched_frame opts (buildEvent body) w hfind' hudf'
      split
      · exact onSubscriptionCompleted_unmatched_frame opts (buildEvent body) w hfind' hudf'
      split
      · exact onSubscriptionPaused_unmatched_frame opts (buildEvent body) w hfind' hudf'
      split
      · exact onSubscriptionResumed_unmatched_frame opts (buildEvent body) w hfind' hudf'
      exact ⟨rfl, rfl⟩
    exact ⟨key.1, key.2, rfl⟩

def subC4A : Subscription :=
  { id := "A"
    plan := "pro"
    status := "active"
    payuTransactionId := some "tx4" }

def subC4B : Subscription :=
  { id := "B"
    plan := "pro"
    status := "active"
    payuTransactionId := some "other" }

def evC4 : Event := { txnid := "tx4", status := "success", udf4 := some "B" }

def wC4 : WorldState := { db := [subC4A, subC4B] }

/-- Witness for C4: a fixture where the txnid lookup resolves to record A and
the udf4 lookup would resolve to record B; the txnid match wins.  A second
fixture where neither lookup matches is dropped with no write and a success
acknowledgment. -/
theorem c4_witness :
    wC4.db.find? (matchesQuery ⟨.id, "B"⟩) = some subC4B ∧
    findSubscription noFaults wC4 evC4 =
      .ok ({ wC4 with queries := [⟨.payuTransactionId, "tx4"⟩] }, some subC4A) ∧
    ((webhookDispatch optsEnabled noFaults
        { txnid := some "zz", status := some "success", hash := some "h" } wC4).1.db =
      wC4.db ∧
     (webhookDispatch optsEnabled noFaults
        { txnid := some "zz", status := some "success", hash := some "h" } wC4).1.updates =
      wC4.updates ∧
     (webhookDispatch optsEnabled noFaults
        { txnid := some "zz", status := some "success", hash := some "h" } wC4).2 =
      ⟨true⟩) := by
  obtain ⟨h1, _h2, h3⟩ := c4_lookup_order
  refine ⟨by decide, ?_, ?_⟩
  · rw [h1 wC4 evC4 subC4A (by decide)]
    rfl
  · exact h3 optsEnabled _ wC4 (by decide) (by intro sid h hne; simp at h)

-- ═══════════════════════════════════════════════════════════════════════════
-- Claim C9
-- ═══════════════════════════════════════════════════════════════════════════

/-- Claim C9: the dispatcher always answers with a success acknowledgment;
once the hash check passes, the endpoint returns `.ok` no matter which of the
adapter or callback operations throw (each handler catches, logs and swallows
its exceptions); under fault injection where every operation throws, a
success-classified event leaves the store, the write trace and the callback
trace untouched and only appends the two caught-error log lines. -/
theorem c9_exceptions_swallowed :
    (∀ (opts : PayUOptions) (f : Faults) (body : Body) (w : WorldState),
       (webhookDispatch opts f body w).2 = ⟨true⟩) ∧
    (∀ (opts : PayUOptions) (f : Faults) (body : Body) (w : WorldState),
       strTruthy body.hash = true →
       verifyPayUHash (buildVerifyParams opts body) opts.merchantSalt
         (body.hash.getD "") = true →
       webhook opts f body w = .ok (webhookDispatch opts f body w)) ∧
    (∀ (opts : PayUOptions) (body : Body) (w : WorldState),
       subEnabled opts = true →
       body.notificationType = none →
       body.status.map strToLower = some "success" →
       jsOr body.txnid "" ≠ "" →
       webhookDispatch opts allFaults body w =
         ({ w with
            queries := w.queries ++ [⟨.payuTransactionId, jsOr body.txnid ""⟩,
                                     ⟨.payuTransactionId, jsOr body.txnid ""⟩]
            log := w.log ++ ["PayU onPaymentSuccess error: adapter findOne failed",
                             "PayU onSubscriptionActivated error: adapter findOne failed"] },
          ⟨true⟩)) := by
  refine ⟨fun _ _ _ _ => rfl, ?_, ?_⟩
  · intro opts f body w h1 h2
    simp [webhook, h1, h2]
  · intro opts body w he hnt hst htx
    simp [webhookDispatch, hnt, hst, onPaymentSuccess, onSubscriptionActivated, he,
      buildEvent, htx, runHook, findSubscription, findSubscriptionByTxnId, adapterFindOne,
      allFaults, logLine]

def bodyC9core : Body :=
  { txnid := some "t9"
    status := some "success"
    notificationType := none }

def hashC9 : String :=
  hmacSha512Hex ""
    (reverseHashString (buildVerifyParams optsEnabled bodyC9core) optsEnabled.merchantSalt)

def bodyC9 : Body := { bodyC9core with hash := some hashC9 }

def wC9 : WorldState := { db := [], now := 3 }

/-- Witness for C9: a correctly signed success event processed while every
adapter and callback operation throws is still acknowledged with `.ok` and a
success response, with the two caught errors logged. -/
theorem c9_witness :
    webhook optsEnabled allFaults bodyC9 wC9 =
      .ok (webhookDispatch optsEnabled allFaults bodyC9 wC9) ∧
    (webhookDispatch optsEnabled allFaults bodyC9 wC9).2 = ⟨true⟩ ∧
    (webhookDispatch optsEnabled allFaults bodyC9 wC9).1.log =
      ["PayU onPaymentSuccess error: adapter findOne failed",
       "PayU onSubscriptionActivated error: adapter findOne failed"] := by
  obtain ⟨h1, h2, h3⟩ := c9_exceptions_swallowed
  refine ⟨h2 optsEnabled allFaults bodyC9 wC9 (by decide) ?_,
          h1 optsEnabled allFaults bodyC9 wC9, ?_⟩
  · exact beq_self_eq_true
      (hmacSha512Hex ""
        (reverseHashString (buildVerifyParams optsEnabled bodyC9core)
          optsEnabled.merchantSalt))
  · rw [h3 optsEnabled bodyC9 wC9 (by decide) rfl (by decide) (by decide)]
    decide


-- ═══════════════════════════════════════════════════════════════════════════
-- Injectivity of the pipe join on pipe-free fields
-- ═══════════════════════════════════════════════════════════════════════════

theorem dataAppend (s t : String) : (s ++ t).data = s.data ++ t.data := rfl

/-- A pipe-terminated prefix determines the split: if neither `a` nor `b`
contains the pipe, `a ++ '|' :: u = b ++ '|' :: v` forces `a = b` and
`u = v`. -/
theorem append_pipe_inj : ∀ (a b u v : List Char),
    '|' ∉ a → '|' ∉ b → a ++ '|' :: u = b ++ '|' :: v → a = b ∧ u = v := by
  intro a
  induction a with
  | nil =>
    intro b u v _ hb h
    cases b with
    | nil => simpa using h
    | cons c b' =>
      simp only [List.nil_append, List.cons_append, List.cons.injEq] at h
      exact absurd (h.1 ▸ List.mem_cons_self c b') hb
  | cons c a' ih =>
    intro b u v ha hb h
    cases b with
    | nil =>
      simp only [List.nil_append, List.cons_append, List.cons.injEq] at h
      exact absurd (h.1 ▸ List.mem_cons_self c a') ha
    | cons d b' =>
      simp only [List.cons_append, List.cons.injEq] at h
      obtain ⟨rfl, h2⟩ := h
      have ha' : '|' ∉ a' := fun hm => ha (List.mem_cons_of_mem _ hm)
      have hb' : '|' ∉ b' := fun hm => hb (List.mem_cons_of_mem _ hm)
      obtain ⟨rfl, rfl⟩ := ih b' u v ha' hb' h2
      exact ⟨rfl, rfl⟩

/-- The pipe join is injective on equal-length lists of pipe-free fields. -/
theorem joinPipe_inj : ∀ (xs ys : List String), xs.length = ys.length →
    (∀ s ∈ xs, '|' ∉ s.data) → (∀ s ∈ ys, '|' ∉ s.data) →
    joinPipe xs = joinPipe ys → xs = ys := by
  intro xs
  induction xs with
  | nil =>
    intro ys hlen _ _ _
    cases ys with
    | nil => rfl
    | cons b ys => simp at hlen
  | cons a xs ih =>
    intro ys hlen hx hy h
    cases ys with
    | nil => simp at hlen
    | cons b ys =>
      cases xs with
      | nil =>
        cases ys with
        | nil => simpa [joinPipe] using h
        | cons b2 ys2 => simp at hlen
      | cons a2 xs2 =>
        cases ys with
        | nil => simp at hlen
        | cons b2 ys2 =>
          simp only [joinPipe] at h
          have hd := congrArg String.data h
          simp only [dataAppend, List.append_assoc, List.singleton_append] at hd
          obtain ⟨h1, h2⟩ := append_pipe_inj a.data b.data _ _
            (hx a (List.mem_cons_self a _)) (hy b (List.mem_cons_self b _)) hd
          have ha : a = b := String.ext h1
          have ht : joinPipe (a2 :: xs2) = joinPipe (b2 :: ys2) := String.ext h2
          have htail := ih (b2 :: ys2) (by simpa using hlen)
            (fun s hs => hx s (List.mem_cons_of_mem _ hs))
            (fun s hs => hy s (List.mem_cons_of_mem _ hs)) ht
          rw [ha, htail]


-- ═══════════════════════════════════════════════════════════════════════════
-- Claim C7
-- ═══════════════════════════════════════════════════════════════════════════

def gC7a : GenerateParams :=
  { key := "k"
    txnid := "t"
    amount := "1.00"
    productinfo := "p"
    firstname := "f"
    email := "e" }

def gC7b : GenerateParams := { gC7a with udf1 := some "" }

/-- Counterexample to C7: two distinct parameter tuples — udf1 absent versus
udf1 present as the empty string — produce the same message string and hence
the same digest; changing a slot between absent and empty does not change the
hash. -/
theorem c7_counterexample :
    gC7a ≠ gC7b ∧
    gC7a.udf1 = none ∧
    gC7b.udf1 = some "" ∧
    generateHashString gC7a "salt" = generateHashString gC7b "salt" ∧
    generatePayUHash gC7a "salt" = generatePayUHash gC7b "salt" := by
  exact ⟨by decide, rfl, rfl, rfl, rfl⟩

/-- Claim C7 as amended: over fields that contain no pipe character, the
outbound message construction is injective up to the absent/empty-string
collapse of udf slots — equal messages force equal effective field tuples
(each udf compared after the `|| ""` normalisation) and equal salts.  Absent
versus empty-string udf slots map to the same message (see the
counterexample), and fields containing the pipe can also collide. -/
theorem c7_message_injectivity (p q : GenerateParams) (sp sq : String)
    (hp : ∀ s ∈ generateFields p sp, '|' ∉ s.data)
    (hq : ∀ s ∈ generateFields q sq, '|' ∉ s.data)
    (h : generateHashString p sp = generateHashString q sq) :
    p.key = q.key ∧ p.txnid = q.txnid ∧ p.amount = q.amount ∧
    p.productinfo = q.productinfo ∧ p.firstname = q.firstname ∧ p.email = q.email ∧
    jsOr p.udf1 "" = jsOr q.udf1 "" ∧ jsOr p.udf2 "" = jsOr q.udf2 "" ∧
    jsOr p.udf3 "" = jsOr q.udf3 "" ∧ jsOr p.udf4 "" = jsOr q.udf4 "" ∧
    jsOr p.udf5 "" = jsOr q.udf5 "" ∧ jsOr p.udf6 "" = jsOr q.udf6 "" ∧
    jsOr p.udf7 "" = jsOr q.udf7 "" ∧ jsOr p.udf8 "" = jsOr q.udf8 "" ∧
    jsOr p.udf9 "" = jsOr q.udf9 "" ∧ jsOr p.udf10 "" = jsOr q.udf10 "" ∧
    sp = sq := by
  have hfields := joinPipe_inj (generateFields p sp) (generateFields q sq) rfl hp hq h
  simpa [generateFields] using hfields

/-- Witness for the amended C7, instantiated at a concrete pipe-free tuple. -/
theorem c7_witness :
    gC7a.key = gC7a.key ∧ gC7a.txnid = gC7a.txnid ∧ gC7a.amount = gC7a.amount ∧
    gC7a.productinfo = gC7a.productinfo ∧ gC7a.firstname = gC7a.firstname ∧
    gC7a.email = gC7a.email ∧
    jsOr gC7a.udf1 "" = jsOr gC7a.udf1 "" ∧ jsOr gC7a.udf2 "" = jsOr gC7a.udf2 "" ∧
    jsOr gC7a.udf3 "" = jsOr gC7a.udf3 "" ∧ jsOr gC7a.udf4 "" = jsOr gC7a.udf4 "" ∧
    jsOr gC7a.udf5 "" = jsOr gC7a.udf5 "" ∧ jsOr gC7a.udf6 "" = jsOr gC7a.udf6 "" ∧
    jsOr gC7a.udf7 "" = jsOr gC7a.udf7 "" ∧ jsOr gC7a.udf8 "" = jsOr gC7a.udf8 "" ∧
    jsOr gC7a.udf9 "" = jsOr gC7a.udf9 "" ∧ jsOr gC7a.udf10 "" = jsOr gC7a.udf10 "" ∧
    ("argsalt" : String) = "argsalt" :=
  c7_message_injectivity gC7a gC7a "argsalt" "argsalt" (by decide) (by decide) rfl

-- ═══════════════════════════════════════════════════════════════════════════
-- Claim C1
-- ═══════════════════════════════════════════════════════════════════════════

/-- The reverse message as the claim words it (spec comparison definition):
merchant salt, status, FIVE empty-string placeholders, udf10..udf1, email,
first name, product description, amount, transaction id, merchant key. -/
def specFivePlaceholderReverseMsg (params : VerifyParams) (salt : String) : String :=
  joinPipe [
    salt,
    params.status,
    "", "", "", "", "",
    jsOr params.udf10 "",
    jsOr params.udf9 "",
    jsOr params.udf8 "",
    jsOr params.udf7 "",
    jsOr params.udf6 "",
    jsOr params.udf5 "",
    jsOr params.udf4 "",
    jsOr params.udf3 "",
    jsOr params.udf2 "",
    jsOr params.udf1 "",
    params.email,
    params.firstname,
    params.productinfo,
    params.amount,
    params.txnid,
    params.key]

def vC1 : VerifyParams :=
  { key := "k1"
    txnid := "t1"
    amount := "10.00"
    productinfo := "prod"
    firstname := "fn"
    email := "a@b.c"
    status := "success" }

/-- Counterexample to C1: the code joins nine empty-string placeholders, not
five; a callback carrying the digest of the claim's five-placeholder message
is rejected by `verifyPayUHash`. -/
theorem c1_five_placeholder_counterexample :
    specFivePlaceholderReverseMsg vC1 "salt" ≠ reverseHashString vC1 "salt" ∧
    verifyPayUHash vC1 "salt"
      (hmacSha512Hex "" (specFivePlaceholderReverseMsg vC1 "salt")) = false := by
  exact ⟨by decide, by decide⟩

/-- Claim C1 as amended: reverse-hash verification computes the HMAC-SHA-512
digest (the keyed-hash primitive being given the empty-string key) of the
pipe-joined message consisting of the merchant salt, the status, NINE
empty-string placeholders, udf10..udf1 in reverse order with the empty string
for absent slots, email, first name, product description, amount, transaction
id and merchant key, and verification succeeds iff this digest equals the
supplied digest under case-sensitive string equality. -/
theorem c1_reverse_hash_nine_placeholders (params : VerifyParams) (salt received : String) :
    verifyPayUHash params salt received = true ↔
      hmacSha512Hex "" (joinPipe
        ([salt, params.status] ++ List.replicate 9 "" ++
         [jsOr params.udf10 "", jsOr params.udf9 "", jsOr params.udf8 "",
          jsOr params.udf7 "", jsOr params.udf6 "", jsOr params.udf5 "",
          jsOr params.udf4 "", jsOr params.udf3 "", jsOr params.udf2 "",
          jsOr params.udf1 "", params.email, params.firstname, params.productinfo,
          params.amount, params.txnid, params.key])) = received := by
  simp [verifyPayUHash, reverseHashString, beq_iff_eq, List.replicate]

-- ═══════════════════════════════════════════════════════════════════════════
-- Claim C6
-- ═══════════════════════════════════════════════════════════════════════════

def gC6 : GenerateParams :=
  { key := "kk"
    txnid := "tt"
    amount := "5.00"
    productinfo := "pp"
    firstname := "ff"
    email := "ee" }

def vC6 : VerifyParams :=
  { key := "kk"
    txnid := "tt"
    amount := "5.00"
    productinfo := "pp"
    firstname := "ff"
    email := "ee"
    status := "success" }

/-- Counterexample to C6: feeding the outbound generator's digest for the same
field values and salt to the reverse verifier fails — generation hashes the
forward field order, verification the reverse order, so the claimed
verify-generate round trip is false. -/
theorem c6_counterexample :
    verifyPayUHash vC6 "salt" (generatePayUHash gC6 "salt") = false := by
  decide

/-- Claim C6 as amended: the round trip holds within the reverse direction —
for every parameter set and salt the verifier accepts the digest recomputed
over the reverse message for those same parameters; the outbound generator's
digest does not verify (see the counterexample), because the two directions
hash different field orders. -/
theorem c6_reverse_round_trip (params : VerifyParams) (salt : String) :
    verifyPayUHash params salt
      (hmacSha512Hex "" (reverseHashString params salt)) = true :=
  beq_self_eq_true (hmacSha512Hex "" (reverseHashString params salt))

end PayU
